import Mathlib

/-!
Verification development for the informal-to-formal math theorem converter
(`src/app.py`).  The Python program is shallowly embedded: environment
variables become `Option String` values, Python string truthiness becomes
an explicit boolean, `str.strip()` becomes `pyStrip`, the Streamlit calls
(`st.error`, `st.warning`, `st.stop`) become fields of an explicit outcome
record, and the single boto3 `invoke_model` call becomes a function
parameter from the request body to a provider outcome.
-/

/-- Whitespace as stripped by Python `str.strip()` (the ASCII whitespace
characters; the program only manipulates such characters). -/
def pyIsSpace (c : Char) : Bool :=
  c = ' ' || c = '\t' || c = '\n' || c = '\r' || c = '\x0b' || c = '\x0c'

/-- Python `str.strip()` on a list of characters: drop leading whitespace,
then drop trailing whitespace. -/
def pyStripList (l : List Char) : List Char :=
  ((l.dropWhile pyIsSpace).reverse.dropWhile pyIsSpace).reverse

/-- Python `str.strip()`. -/
def pyStrip (s : String) : String :=
  ⟨pyStripList s.data⟩

/-- Python truthiness of an `os.getenv` result: `None` and the empty string
are falsy, every other string is truthy. -/
def envTruthy : Option String → Bool
  | none => false
  | some s => !s.isEmpty

/-- Everything of the f-string prompt template of `bedrock_llama_response`
(src/app.py lines 38-50) that precedes the interpolated statement. -/
def promptHead : String :=
  "As an expert in mathematical theorem formalization, your task is to convert the given informal mathematical statement into a formal theorem statement in Lean. Follow these guidelines:\n\n1. Use proper Lean syntax and notation.\n2. Include appropriate type declarations for variables.\n3. Use Unicode characters for mathematical symbols where applicable.\n4. Structure the theorem statement logically, using implications (→) or biconditionals (↔) as needed.\n5. If the statement involves multiple conditions or parts, use appropriate logical connectives (∧, ∨, ¬).\n6. For statements about sets or types, use appropriate quantifiers (∀, ∃) and set notation.\n7. If the statement involves specific mathematical concepts (e.g., primality, divisibility), use the corresponding Lean functions or definitions.\n\nInformal statement: "

/-- Everything of the f-string prompt template of `bedrock_llama_response`
that follows the interpolated statement. -/
def promptTail : String :=
  "\n\nFormal Lean theorem:"

/-- The prompt built by `bedrock_llama_response`: the f-string with
`informal_statement` interpolated. -/
def buildPrompt (informal_statement : String) : String :=
  promptHead ++ informal_statement ++ promptTail

/-- Modelled from the spec: the part of the section-6 prompt template that
precedes `\x7bstatement\x7d`, transcribed literally from the spec text
(with its own line breaks).  Used only to compare the spec template with
the source template. -/
def specPromptHead : String :=
  "As an expert in mathematical theorem formalization, your task is to convert\nthe given informal mathematical statement into a formal theorem statement\nin Lean. Follow these guidelines:\n1. Use proper Lean syntax and notation.\n2. Include appropriate type declarations for variables.\n3. Use Unicode characters for mathematical symbols where applicable.\n4. Structure the theorem statement logically, using implications (→) or\n   biconditionals (↔) as needed.\n5. If the statement involves multiple conditions or parts, use appropriate\n   logical connectives (∧, ∨, ¬).\n6. For statements about sets or types, use appropriate quantifiers\n   (∀, ∃) and set notation.\n7. If the statement involves specific mathematical concepts (e.g.,\n   primality, divisibility), use the corresponding functions or definitions.\n\nInformal statement: "

/-- Modelled from the spec: the part of the section-6 prompt template that
follows `\x7bstatement\x7d`. -/
def specPromptTail : String :=
  "\n\nFormal theorem:"

/-- Modelled from the spec: the section-6 template with the statement
substituted. -/
def specBuildPrompt (statement : String) : String :=
  specPromptHead ++ statement ++ specPromptTail

/-- The JSON body sent to `invoke_model` (src/app.py lines 52-57). -/
structure RequestBody where
  prompt : String
  max_gen_len : Nat
  temperature : ℚ
  top_p : ℚ
deriving DecidableEq, Repr

/-- The request body built by `bedrock_llama_response` for a given
informal statement. -/
def mkRequest (informal_statement : String) : RequestBody :=
  { prompt := buildPrompt informal_statement
    max_gen_len := 300
    temperature := (0.2 : ℚ)
    top_p := (0.95 : ℚ) }

/-- A `botocore` `ClientError`, as read by the handler on src/app.py
lines 69-72: an error code and an error message. -/
structure ProviderError where
  code : String
  message : String
deriving DecidableEq, Repr

/-- Outcome of the `invoke_model` call plus response parsing: a parsed
response body whose `generation` field is absent (`none`) or a string, a
`ClientError`, or any other exception with its message. -/
inductive ProviderOutcome where
  | success (generation : Option String)
  | clientError (e : ProviderError)
  | otherError (msg : String)
deriving DecidableEq, Repr

/-- A user-facing Streamlit message: `st.error` or `st.warning`. -/
inductive UIMessage where
  | error (msg : String)
  | warning (msg : String)
deriving DecidableEq, Repr

/-- Observable outcome of one call of `bedrock_llama_response`:
the outbound requests issued, the returned value (`none` models Python
`None`), the Streamlit messages emitted, and whether `st.stop` was hit. -/
structure ConvertOutcome where
  requests : List RequestBody
  result : Option String
  messages : List UIMessage
  halted : Bool
deriving DecidableEq, Repr

/-- Shallow embedding of `bedrock_llama_response` (src/app.py lines 32-75).
`model_id` is the value of `os.getenv("BEDROCK_MODEL_ID")`; `provider`
gives the outcome of the one `invoke_model` call on the body passed to it. -/
def bedrock_llama_response (model_id : Option String)
    (provider : RequestBody → ProviderOutcome)
    (informal_statement : String) : ConvertOutcome :=
  if envTruthy model_id = false then
    { requests := []
      result := none
      messages := [UIMessage.error "BEDROCK_MODEL_ID not found. Please set it in your environment or .env file."]
      halted := true }
  else
    let body := mkRequest informal_statement
    match provider body with
    | ProviderOutcome.success gen =>
        { requests := [body]
          result := some (match gen with
            | some g => if g = "" then "Conversion failed." else pyStrip g
            | none => "Conversion failed.")
          messages := []
          halted := false }
    | ProviderOutcome.clientError e =>
        { requests := [body]
          result := none
          messages := [UIMessage.error ("AWS Bedrock API error: " ++ e.code ++ " - " ++ e.message)]
          halted := false }
    | ProviderOutcome.otherError m =>
        { requests := [body]
          result := none
          messages := [UIMessage.error ("An error occurred while calling the AWS Bedrock API: " ++ m)]
          halted := false }

/-- The four environment values the spec names (src/app.py lines 12-14
and 33). -/
structure Env where
  aws_access_key_id : Option String
  aws_secret_access_key : Option String
  aws_region : Option String
  bedrock_model_id : Option String
deriving DecidableEq, Repr

/-- Shallow embedding of the halt condition of `initialize_bedrock_client`
(src/app.py lines 11-18): `not all([...])` over the three values read at
startup, which triggers `st.error` and `st.stop`. -/
def startupHalts (env : Env) : Bool :=
  !(envTruthy env.aws_access_key_id && envTruthy env.aws_secret_access_key
      && envTruthy env.aws_region)

/-- Observable outcome of one press of the Convert button in `main`:
whether `bedrock_llama_response` was invoked, the requests issued, the
text rendered with `st.code` (if any), the messages emitted, and whether
the script run was stopped. -/
structure SubmitOutcome where
  invoked : Bool
  requests : List RequestBody
  rendered : Option String
  messages : List UIMessage
  halted : Bool
deriving DecidableEq, Repr

/-- Shallow embedding of the Convert-button handler in `main`
(src/app.py lines 89-97): an empty statement produces a warning without
calling the client; otherwise the client is called and a truthy result is
rendered. -/
def main_convert (model_id : Option String)
    (provider : RequestBody → ProviderOutcome)
    (informal_statement : String) : SubmitOutcome :=
  if informal_statement = "" then
    { invoked := false
      requests := []
      rendered := none
      messages := [UIMessage.warning "Please enter a mathematical statement to convert."]
      halted := false }
  else
    let r := bedrock_llama_response model_id provider informal_statement
    { invoked := true
      requests := r.requests
      rendered := match r.result with
        | some s => if s = "" then none else some s
        | none => none
      messages := r.messages
      halted := r.halted }

/-- The string has no leading and no trailing whitespace character. -/
def noEdgeSpace (s : String) : Prop :=
  s.data.head?.all (fun c => !pyIsSpace c) = true ∧
  s.data.getLast?.all (fun c => !pyIsSpace c) = true

lemma head_dropWhile_false (p : Char → Bool) (l : List Char) :
    ∀ c ∈ (l.dropWhile p).head?, p c = false := by
  induction l with
  | nil => simp
  | cons a t ih =>
    by_cases h : p a
    · simpa [List.dropWhile_cons, h] using ih
    · simp [List.dropWhile_cons, h]

lemma getLast_dropWhile_of_ne_nil (p : Char → Bool) (l : List Char)
    (h : l.dropWhile p ≠ []) : (l.dropWhile p).getLast? = l.getLast? := by
  induction l with
  | nil => simp at h
  | cons a t ih =>
    by_cases hp : p a
    · rw [List.dropWhile_cons, if_pos hp] at h ⊢
      have ht : t ≠ [] := by
        rintro rfl
        simp at h
      rw [ih h]
      cases t with
      | nil => exact absurd rfl ht
      | cons b t2 => exact (List.getLast?_cons_cons).symm
    · rw [List.dropWhile_cons, if_neg hp]

lemma pyStripList_head (l : List Char) :
    ∀ c ∈ (pyStripList l).head?, pyIsSpace c = false := by
  intro c hc
  unfold pyStripList at hc
  rw [List.head?_reverse] at hc
  by_cases hne : (l.dropWhile pyIsSpace).reverse.dropWhile pyIsSpace = []
  · rw [hne] at hc
    simp at hc
  · rw [getLast_dropWhile_of_ne_nil _ _ hne, List.getLast?_reverse] at hc
    exact head_dropWhile_false pyIsSpace l c hc

lemma pyStripList_getLast (l : List Char) :
    ∀ c ∈ (pyStripList l).getLast?, pyIsSpace c = false := by
  intro c hc
  unfold pyStripList at hc
  rw [List.getLast?_reverse] at hc
  exact head_dropWhile_false pyIsSpace _ c hc

lemma option_all_of_forall {o : Option Char} {p : Char → Bool}
    (h : ∀ c ∈ o, p c = false) : o.all (fun c => !p c) = true := by
  cases o with
  | none => rfl
  | some a => simp [Option.all, h a rfl]

lemma noEdgeSpace_pyStrip (g : String) : noEdgeSpace (pyStrip g) :=
  ⟨option_all_of_forall (pyStripList_head g.data),
   option_all_of_forall (pyStripList_getLast g.data)⟩

lemma bedrock_requests (model_id : Option String) (provider : RequestBody → ProviderOutcome)
    (s : String) (hm : envTruthy model_id = true) :
    (bedrock_llama_response model_id provider s).requests = [mkRequest s] := by
  cases hp : provider (mkRequest s) <;> simp [bedrock_llama_response, hm, hp]

/-- C1 counterexample: at the concrete input "x" the issued request's prompt
is the source template with "x" interpolated, and that prompt is not the
spec section-6 template with "x" substituted (the source wraps lines
differently, guideline 7 says "the corresponding Lean functions or
definitions", and the trailer is "Formal Lean theorem:"). -/
theorem c1_counterexample :
    (bedrock_llama_response (some "m") (fun _ => ProviderOutcome.success none) "x").requests.map
        RequestBody.prompt = [buildPrompt "x"] ∧
    buildPrompt "x" ≠ specBuildPrompt "x" :=
  ⟨rfl, by decide⟩

/-- C1 (amended): for every non-empty input string s, when the model id is
configured, convert issues a request whose prompt is exactly the source's
fixed template text, then s verbatim, then the source's fixed trailer. -/
theorem c1_prompt_template (s : String) (_hne : s ≠ "")
    (model_id : Option String) (provider : RequestBody → ProviderOutcome)
    (hm : envTruthy model_id = true) :
    (bedrock_llama_response model_id provider s).requests.map RequestBody.prompt
      = [promptHead ++ s ++ promptTail] := by
  rw [bedrock_requests model_id provider s hm]
  simp [mkRequest, buildPrompt]

/-- C1 witness: the amended theorem applied at the concrete input "x". -/
theorem c1_witness :
    (bedrock_llama_response (some "m") (fun _ => ProviderOutcome.success none) "x").requests.map
        RequestBody.prompt = [promptHead ++ "x" ++ promptTail] :=
  c1_prompt_template "x" (by decide) (some "m") (fun _ => ProviderOutcome.success none) (by decide)

/-- C2 counterexample: with access key, secret key and region present but
the model identifier absent, the startup check of
initialize_bedrock_client does not halt, contradicting the claim that the
absence of any of the four configuration values halts startup. -/
theorem c2_counterexample :
    startupHalts { aws_access_key_id := some "k", aws_secret_access_key := some "s",
                   aws_region := some "r", bedrock_model_id := none } = false := by
  decide

/-- C2 (amended): startup reads only the access key, the secret key and the
region and halts if any of those three is empty or absent; the model
identifier is read at conversion time, and when it is empty or absent the
conversion halts at that point, before issuing any outbound request. -/
theorem c2_startup_checks (env : Env) (provider : RequestBody → ProviderOutcome) (s : String) :
    ((envTruthy env.aws_access_key_id = false ∨ envTruthy env.aws_secret_access_key = false ∨
        envTruthy env.aws_region = false) → startupHalts env = true) ∧
    (envTruthy env.bedrock_model_id = false →
      (bedrock_llama_response env.bedrock_model_id provider s).halted = true ∧
      (bedrock_llama_response env.bedrock_model_id provider s).requests = []) := by
  constructor
  · intro h
    unfold startupHalts
    rcases h with h | h | h <;> simp [h]
  · intro h
    constructor <;> simp [bedrock_llama_response, h]

/-- C2 witness: a missing access key halts startup, and a missing model id
halts the conversion, at concrete inputs. -/
theorem c2_witness :
    startupHalts ⟨none, some "s", some "r", some "m"⟩ = true ∧
    (bedrock_llama_response none (fun _ => ProviderOutcome.success none) "x").halted = true := by
  refine ⟨(c2_startup_checks ⟨none, some "s", some "r", some "m"⟩
      (fun _ => ProviderOutcome.success none) "x").1 (Or.inl (by decide)), ?_⟩
  exact ((c2_startup_checks ⟨some "k", some "s", some "r", none⟩
      (fun _ => ProviderOutcome.success none) "x").2 (by decide)).1

/-- C3 counterexample: a whitespace-only generation " " is truthy in
Python, so the code returns its stripped value, the empty string, and not
the sentinel "Conversion failed." that the claim requires. -/
theorem c3_counterexample :
    (bedrock_llama_response (some "m") (fun _ => ProviderOutcome.success (some " ")) "x").result
      = some "" ∧
    (bedrock_llama_response (some "m") (fun _ => ProviderOutcome.success (some " ")) "x").result
      ≠ some "Conversion failed." :=
  ⟨by decide, by decide⟩

/-- C3 (amended): when the generation field is absent or is the empty
string, convert returns the sentinel "Conversion failed."; a
whitespace-only non-empty generation instead yields its stripped value. -/
theorem c3_sentinel (model_id : Option String) (provider : RequestBody → ProviderOutcome)
    (s : String) (gen : Option String)
    (hm : envTruthy model_id = true)
    (hp : provider (mkRequest s) = ProviderOutcome.success gen)
    (hg : gen = none ∨ gen = some "") :
    (bedrock_llama_response model_id provider s).result = some "Conversion failed." := by
  rcases hg with rfl | rfl <;> simp [bedrock_llama_response, hm, hp]

/-- C3 witness: the amended theorem applied at a concrete response with no
generation field. -/
theorem c3_witness :
    (bedrock_llama_response (some "m") (fun _ => ProviderOutcome.success none) "y").result
      = some "Conversion failed." :=
  c3_sentinel (some "m") (fun _ => ProviderOutcome.success none) "y" none (by decide) rfl
    (Or.inl rfl)

/-- C4: when the provider responds with a generation that is non-empty
after stripping, convert returns exactly the stripped generation. -/
theorem c4_trimmed (model_id : Option String) (provider : RequestBody → ProviderOutcome)
    (s : String) (g : String)
    (hm : envTruthy model_id = true)
    (hp : provider (mkRequest s) = ProviderOutcome.success (some g))
    (hg : pyStrip g ≠ "") :
    (bedrock_llama_response model_id provider s).result = some (pyStrip g) := by
  have hne : g ≠ "" := by
    rintro rfl
    exact hg (by decide)
  simp [bedrock_llama_response, hm, hp, hne]

/-- C4 witness: the generation "  foo  " yields the result "foo". -/
theorem c4_witness :
    (bedrock_llama_response (some "m")
        (fun _ => ProviderOutcome.success (some "  foo  ")) "x").result = some "foo" := by
  have h := c4_trimmed (some "m") (fun _ => ProviderOutcome.success (some "  foo  ")) "x"
    "  foo  " (by decide) rfl (by decide)
  rw [h]
  decide

/-- C5: a ClientError from the remote call yields no result, one error
message carrying both the error code and the error message, and no halt of
the script run (the app keeps accepting submissions). -/
theorem c5_provider_error (model_id : Option String) (provider : RequestBody → ProviderOutcome)
    (s : String) (e : ProviderError)
    (hm : envTruthy model_id = true)
    (hp : provider (mkRequest s) = ProviderOutcome.clientError e) :
    (bedrock_llama_response model_id provider s).result = none ∧
    (bedrock_llama_response model_id provider s).messages
      = [UIMessage.error ("AWS Bedrock API error: " ++ e.code ++ " - " ++ e.message)] ∧
    (bedrock_llama_response model_id provider s).halted = false := by
  refine ⟨?_, ?_, ?_⟩ <;> simp [bedrock_llama_response, hm, hp]

/-- C5 witness: the theorem applied at the spec's concrete example, a
ThrottlingException with message "rate exceeded". -/
theorem c5_witness :
    (bedrock_llama_response (some "m")
        (fun _ => ProviderOutcome.clientError ⟨"ThrottlingException", "rate exceeded"⟩)
        "x").messages
      = [UIMessage.error "AWS Bedrock API error: ThrottlingException - rate exceeded"] := by
  have h := c5_provider_error (some "m")
    (fun _ => ProviderOutcome.clientError ⟨"ThrottlingException", "rate exceeded"⟩) "x"
    ⟨"ThrottlingException", "rate exceeded"⟩ (by decide) rfl
  rw [h.2.1]
  decide

/-- C6: when the model id is configured, every invocation issues exactly
one outbound request, whose payload carries the prompt together with
max_gen_len 300, temperature 0.2 and top_p 0.95, whatever the provider
outcome is. -/
theorem c6_single_request (model_id : Option String) (provider : RequestBody → ProviderOutcome)
    (s : String) (hm : envTruthy model_id = true) :
    (bedrock_llama_response model_id provider s).requests
      = [{ prompt := buildPrompt s, max_gen_len := 300,
           temperature := (0.2 : ℚ), top_p := (0.95 : ℚ) }] := by
  rw [bedrock_requests model_id provider s hm]
  rfl

/-- C6 witness: the theorem applied at a concrete invocation. -/
theorem c6_witness :
    (bedrock_llama_response (some "m") (fun _ => ProviderOutcome.success none) "x").requests
      = [{ prompt := buildPrompt "x", max_gen_len := 300,
           temperature := (0.2 : ℚ), top_p := (0.95 : ℚ) }] :=
  c6_single_request (some "m") (fun _ => ProviderOutcome.success none) "x" (by decide)

/-- C7: submitting with an empty statement never invokes the conversion
client, issues no request, and produces the warning instead. -/
theorem c7_empty_input (model_id : Option String) (provider : RequestBody → ProviderOutcome) :
    (main_convert model_id provider "").invoked = false ∧
    (main_convert model_id provider "").requests = [] ∧
    (main_convert model_id provider "").messages
      = [UIMessage.warning "Please enter a mathematical statement to convert."] :=
  ⟨rfl, rfl, rfl⟩

/-- C8 counterexample: with a whitespace-only generation " " the conversion
returns the empty string, so the invocation renders no result and reports
no reason - the outcome is neither success nor failure. -/
theorem c8_counterexample :
    (main_convert (some "m") (fun _ => ProviderOutcome.success (some " ")) "x").rendered
      = none ∧
    (main_convert (some "m") (fun _ => ProviderOutcome.success (some " ")) "x").messages
      = [] :=
  ⟨by decide, by decide⟩

/-- C8 (amended): every invocation is exactly one of success (a result is
rendered and no message is emitted) or failure (nothing is rendered and a
reason is reported), except when the provider generation is non-empty but
strips to the empty string, in which case nothing is rendered and nothing
is reported. -/
theorem c8_exactly_one (model_id : Option String) (provider : RequestBody → ProviderOutcome)
    (s : String) :
    ((main_convert model_id provider s).rendered.isSome = true ∧
        (main_convert model_id provider s).messages = []) ∨
    ((main_convert model_id provider s).rendered = none ∧
        (main_convert model_id provider s).messages ≠ []) ∨
    ((main_convert model_id provider s).rendered = none ∧
        (main_convert model_id provider s).messages = [] ∧
        ∃ g, provider (mkRequest s) = ProviderOutcome.success (some g) ∧
          g ≠ "" ∧ pyStrip g = "") := by
  by_cases hs : s = ""
  · subst hs
    right; left
    exact ⟨rfl, by simp [main_convert]⟩
  · cases hmv : envTruthy model_id with
    | false =>
        right; left
        constructor <;> simp [main_convert, bedrock_llama_response, hs, hmv]
    | true =>
        cases hp : provider (mkRequest s) with
        | success gen =>
            cases gen with
            | none =>
                left
                constructor <;> simp [main_convert, bedrock_llama_response, hs, hmv, hp]
            | some g =>
                by_cases hg : g = ""
                · subst hg
                  left
                  constructor <;> simp [main_convert, bedrock_llama_response, hs, hmv, hp]
                · by_cases hstrip : pyStrip g = ""
                  · right; right
                    refine ⟨?_, ?_, g, rfl, hg, hstrip⟩ <;>
                      simp [main_convert, bedrock_llama_response, hs, hmv, hp, hg, hstrip]
                  · left
                    constructor <;>
                      simp [main_convert, bedrock_llama_response, hs, hmv, hp, hg, hstrip]
        | clientError e =>
            right; left
            constructor <;> simp [main_convert, bedrock_llama_response, hs, hmv, hp]
        | otherError m =>
            right; left
            constructor <;> simp [main_convert, bedrock_llama_response, hs, hmv, hp]

/-- C9: the whitespace-only statement " " is non-empty, so the empty-input
gate accepts it, the client is invoked, and the issued request's prompt is
the template with " " interpolated. -/
theorem c9_whitespace_input :
    (" " : String) ≠ "" ∧ pyIsSpace ' ' = true ∧
    (main_convert (some "m") (fun _ => ProviderOutcome.success none) " ").invoked = true ∧
    (main_convert (some "m") (fun _ => ProviderOutcome.success none) " ").requests.map
        RequestBody.prompt = [promptHead ++ " " ++ promptTail] :=
  ⟨by decide, by decide, rfl, rfl⟩

/-- C10: every non-None value returned by the conversion has no leading or
trailing whitespace, and is either the sentinel "Conversion failed." or the
stripped generation text. -/
theorem c10_no_edge_whitespace (model_id : Option String)
    (provider : RequestBody → ProviderOutcome) (s r : String)
    (h : (bedrock_llama_response model_id provider s).result = some r) :
    noEdgeSpace r ∧ (r = "Conversion failed." ∨ ∃ g, r = pyStrip g) := by
  cases hmv : envTruthy model_id with
  | false => simp [bedrock_llama_response, hmv] at h
  | true =>
    cases hp : provider (mkRequest s) with
    | clientError e => simp [bedrock_llama_response, hmv, hp] at h
    | otherError m => simp [bedrock_llama_response, hmv, hp] at h
    | success gen =>
      cases gen with
      | none =>
        simp [bedrock_llama_response, hmv, hp] at h
        subst h
        exact ⟨⟨rfl, rfl⟩, Or.inl rfl⟩
      | some g =>
        by_cases hg : g = ""
        · subst hg
          simp [bedrock_llama_response, hmv, hp] at h
          subst h
          exact ⟨⟨rfl, rfl⟩, Or.inl rfl⟩
        · simp [bedrock_llama_response, hmv, hp, hg] at h
          subst h
          exact ⟨noEdgeSpace_pyStrip g, Or.inr ⟨g, rfl⟩⟩

/-- C10 witness: the theorem applied at a concrete invocation whose result
is "foo". -/
theorem c10_witness :
    noEdgeSpace "foo" ∧ ("foo" = "Conversion failed." ∨ ∃ g, "foo" = pyStrip g) :=
  c10_no_edge_whitespace (some "m") (fun _ => ProviderOutcome.success (some " foo "))
    "x" "foo" (by decide)
